import Mathlib

/-!
# Verification of the homework-status Telegram bot (`homework.py`, `exceptions.py`)

A shallow embedding of the bot's pure decision logic.  JSON-decoded Python
values are modelled by `Json`; the exception classes of `exceptions.py`
together with the untyped library exceptions that can escape the code are
modelled by `BotError`; fallible functions return `Except BotError _`.
The outside world (HTTP responses, Telegram delivery outcomes) is passed in
as explicit parameters, so every function is executable.
-/

set_option autoImplicit false

namespace HomeworkBot

/-- A JSON-decoded Python value, as produced by `response.json()`. -/
inductive Json where
  | str : String → Json
  | num : Int → Json
  | bool : Bool → Json
  | null : Json
  | arr : List Json → Json
  | obj : List (String × Json) → Json
deriving Repr, Inhabited

mutual

/-- Structural equality of `Json` values, modelling Python `==` / `!=` on
decoded JSON data (dicts compare as key-value maps; insertion order is kept
here, which agrees with Python on the dicts this program ever compares:
a report dict is only compared against a copy built by the same code path). -/
def jsonBeq : Json → Json → Bool
  | .str a, .str b => a == b
  | .num a, .num b => a == b
  | .bool a, .bool b => a == b
  | .null, .null => true
  | .arr a, .arr b => jsonListBeq a b
  | .obj a, .obj b => jsonPairsBeq a b
  | _, _ => false

/-- Elementwise `jsonBeq` on lists. -/
def jsonListBeq : List Json → List Json → Bool
  | [], [] => true
  | a :: as, b :: bs => jsonBeq a b && jsonListBeq as bs
  | _, _ => false

/-- Keyed elementwise `jsonBeq` on key-value pair lists. -/
def jsonPairsBeq : List (String × Json) → List (String × Json) → Bool
  | [], [] => true
  | (k1, v1) :: as, (k2, v2) :: bs => k1 == k2 && jsonBeq v1 v2 && jsonPairsBeq as bs
  | _, _ => false

end

/-- Python `d.get(k)` on a decoded JSON object: `None` (here `Json.null`)
when the key is absent. -/
def dictGetD (kvs : List (String × Json)) (k : String) : Json :=
  match kvs.find? (fun kv => kv.1 == k) with
  | some kv => kv.2
  | none => Json.null

/-- Python `k in d` on a decoded JSON object. -/
def dictHasKey (kvs : List (String × Json)) (k : String) : Bool :=
  (kvs.find? (fun kv => kv.1 == k)).isSome

/-- Python truthiness of a decoded JSON value (`bool(x)`). -/
def pyTruthy : Json → Bool
  | .str s => !s.isEmpty
  | .num n => n != 0
  | .bool b => b
  | .null => false
  | .arr l => !l.isEmpty
  | .obj l => !l.isEmpty

/-- Python `str(x)` of a decoded JSON value, as interpolated by an f-string.
Containers are rendered by Python with quoted string elements and brace
delimiters; no property proved below ever interpolates a container, so their
rendering is abbreviated to a fixed placeholder. -/
def pyStr : Json → String
  | .str s => s
  | .num n => toString n
  | .bool true => "True"
  | .bool false => "False"
  | .null => "None"
  | .arr _ => "[...]"
  | .obj _ => "\x7b...\x7d"

/-- The errors that can escape the bot's functions.  The first six model the
classes of `exceptions.py`; the remaining ones model untyped library
exceptions that `homework.py` never catches locally (`requests` transport
errors, `json` decode errors, attribute/membership errors on unexpected
shapes).  Each constructor carries the text that Python `str()` would render
for the exception, except `keyError`, whose `str()` adds quotes (see
`errText`). -/
inductive BotError where
  | undocumentedStatusError : String → BotError
  | requestError : String → BotError
  | endPointError : String → BotError
  | listEmptyError : String → BotError
  | dictEmptyError : String → BotError
  | sendMessageError : String → BotError
  | keyError : String → BotError
  | typeError : String → BotError
  | jsonDecodeError : String → BotError
  | transportError : String → BotError
  | attributeError : String → BotError
deriving Repr, DecidableEq

/-- Python `str(error)` as interpolated by `f'... {error} ...'`.  For a
`KeyError`, Python renders the `repr` of its argument, i.e. the message in
single quotes. -/
def errText : BotError → String
  | .undocumentedStatusError s => s
  | .requestError s => s
  | .endPointError s => s
  | .listEmptyError s => s
  | .dictEmptyError s => s
  | .sendMessageError s => s
  | .keyError s => "\x27" ++ s ++ "\x27"
  | .typeError s => s
  | .jsonDecodeError s => s
  | .transportError s => s
  | .attributeError s => s

/-- True exactly for the error kinds defined by the repository's
`exceptions.py` (typed errors); false for untyped library exceptions. -/
def isRepoError : BotError → Bool
  | .undocumentedStatusError _ => true
  | .requestError _ => true
  | .endPointError _ => true
  | .listEmptyError _ => true
  | .dictEmptyError _ => true
  | .sendMessageError _ => true
  | _ => false

/-- True exactly for `EndPointError`. -/
def isEndPoint : BotError → Bool
  | .endPointError _ => true
  | _ => false

/-! ## Configuration (`check_tokens` and main's startup gate) -/

/-- The three environment variables read at import time; `none` models an
unset variable (`os.getenv` returns `None`). -/
structure Env where
  practicum_token : Option String
  telegram_token : Option String
  telegram_chat_id : Option String

/-- Python truthiness of an `Optional[str]`: `None` and the empty string are
falsy. -/
def truthyOptStr : Option String → Bool
  | none => false
  | some s => !s.isEmpty

/-- `check_tokens` (homework.py lines 53-62):
`all([PRACTICUM_TOKEN, TELEGRAM_TOKEN, TELEGRAM_CHAT_ID])`. -/
def check_tokens (env : Env) : Bool :=
  truthyOptStr env.practicum_token &&
    truthyOptStr env.telegram_token &&
    truthyOptStr env.telegram_chat_id

/-- Python truthiness of the bare name `check_tokens` as it appears in main's
`if not check_tokens:` (homework.py line 164): the function is referenced,
not called, and a function object is always truthy. -/
def check_tokens_object_truthy : Bool := true

/-- Main's startup gate exactly as written (lines 164-168): the abort branch
runs only when `not check_tokens` — the negated truthiness of the function
object — is true, so it never runs, whatever the environment holds. -/
def main_startup_aborts (_env : Env) : Bool := !check_tokens_object_truthy

/-- The startup gate that `check_tokens`'s own docstring and main's dead
abort branch describe: abort when any of the three variables is missing,
i.e. when `check_tokens()` returns `False`. -/
def main_startup_aborts_intended (env : Env) : Bool := !check_tokens env

/-! ## API client (`get_api_answer`) -/

/-- The outcome of `requests.get` on the endpoint as seen by the program:
either the call itself raises (connection error, timeout — carrying the
library exception's text), or a response arrives with a status code and a
body whose JSON decoding either succeeds with a value or raises a decode
error with the given text. -/
inductive HttpOutcome where
  | transportFailure : String → HttpOutcome
  | response : Nat → Except String Json → HttpOutcome
deriving Repr

/-- `get_api_answer` (homework.py lines 65-93).  `tsNumeric` is
`isinstance(current_timestamp, (float, int))`; main always passes an `int`.
`requests.get` is not wrapped in any try/except, so a transport failure
propagates as the library's own exception (`transportError`), and
`response.json()` decode failures propagate as `jsonDecodeError`; on a
non-200, non-404 status the decoded body's `code`/`error` fields are folded
into an `EndPointError` (`.get` on a non-dict body raises `AttributeError`). -/
def get_api_answer (tsNumeric : Bool) (outcome : HttpOutcome) : Except BotError Json :=
  if !tsNumeric then
    Except.error (BotError.endPointError "Неверный формат даты")
  else
    match outcome with
    | .transportFailure err => Except.error (BotError.transportError err)
    | .response status body =>
      if status == 200 then
        match body with
        | .ok j => Except.ok j
        | .error err => Except.error (BotError.jsonDecodeError err)
      else if status == 404 then
        Except.error (BotError.endPointError ("Нет ответа API: " ++ toString status))
      else
        match body with
        | .error err => Except.error (BotError.jsonDecodeError err)
        | .ok j =>
          match j with
          | .obj kvs =>
            let answer_code := dictGetD kvs "code"
            let answer_error := dictGetD kvs "error"
            if !pyTruthy answer_code then
              Except.error (BotError.endPointError ("Нет ответа API: " ++ pyStr answer_error))
            else
              Except.error (BotError.endPointError ("Нет ответа API: " ++ pyStr answer_code))
          | _ => Except.error (BotError.attributeError "get")

/-! ## Response validator (`check_response`) -/

/-- `check_response` (homework.py lines 96-119): type-check the decoded
response, require a `homeworks` key holding a list, reject the empty list
with `ListEmptyError`, otherwise return the list unchanged. -/
def check_response (response : Json) : Except BotError (List Json) :=
  match response with
  | .obj kvs =>
    if !dictHasKey kvs "homeworks" then
      Except.error (BotError.keyError "Ошибка словаря по ключу homeworks")
    else
      match dictGetD kvs "homeworks" with
      | .arr list_homeworks =>
        if list_homeworks.isEmpty then
          Except.error (BotError.listEmptyError "Список работ пуст")
        else
          Except.ok list_homeworks
      | _ =>
        Except.error (BotError.typeError
          "Оттвет от API под ключом `homeworks` домашки приходят не в виде списка")
  | _ => Except.error (BotError.typeError "Ответ API отличен от словаря")

/-! ## Status translator (`parse_status`) -/

/-- `HOMEWORK_VERDICTS` (homework.py lines 46-50): the fixed verdict table. -/
def HOMEWORK_VERDICTS : List (String × String) :=
  [("approved", "Работа проверена: ревьюеру всё понравилось. Ура!"),
   ("reviewing", "Работа взята на проверку ревьюером."),
   ("rejected", "Работа проверена: у ревьюера есть замечания.")]

/-- Python `homework_status not in HOMEWORK_VERDICTS` followed by
`HOMEWORK_VERDICTS.get(homework_status)`: dict membership/lookup succeeds only
for a string key present in the table (a non-string JSON value never equals a
string key). -/
def verdictFor : Json → Option String
  | .str s =>
    match HOMEWORK_VERDICTS.find? (fun kv => kv.1 == s) with
    | some kv => some kv.2
    | none => none
  | _ => none

/-- `parse_status` (homework.py lines 122-145): reject a falsy record with
`DictEmptyError`, require the `homework_name` and `status` keys (`KeyError`
otherwise), reject a status outside `HOMEWORK_VERDICTS` with
`UndocumentedStatusError`, else compose the notification message.  A truthy
record that is not a dict fails with an untyped error whose precise Python
kind depends on the record's type (the `in` test or the later `.get` raises);
it is modelled uniformly as `typeError` here — every property below applies
`parse_status` to dict records only. -/
def parse_status (homework : Json) : Except BotError String :=
  if !pyTruthy homework then
    Except.error (BotError.dictEmptyError "Домашние работы отсутствуют")
  else
    match homework with
    | .obj kvs =>
      if !dictHasKey kvs "homework_name" then
        Except.error (BotError.keyError "Отсутствует ключ \"homework_name\" в ответе API")
      else if !dictHasKey kvs "status" then
        Except.error (BotError.keyError "Отсутствует ключ \"status\" в ответе API")
      else
        let homework_status := dictGetD kvs "status"
        let homework_name := dictGetD kvs "homework_name"
        match verdictFor homework_status with
        | none =>
          Except.error (BotError.undocumentedStatusError
            ("Недокументированный статус домашней работы,"
              ++ "обнаруженный в ответе API: " ++ pyStr homework_status))
        | some verdict =>
          Except.ok ("Изменился статус проверки работы \"" ++ pyStr homework_name
            ++ "\". " ++ verdict)
    | _ => Except.error (BotError.typeError "argument of type is not iterable")

/-! ## Notifier (`send_message`) -/

/-- The Telegram delivery outcome for a given message text, supplied by the
environment: `none` means `bot.send_message` returns, `some err` means it
raises an exception rendering as `err`. -/
def SendOracle := String → Option String

/-- `send_message` (homework.py lines 148-160): any exception from
`bot.send_message` is re-raised as `SendMessageError` wrapping the underlying
error. -/
def send_message (sendResult : SendOracle) (message : String) : Except BotError Unit :=
  match sendResult message with
  | none => Except.ok ()
  | some err => Except.error (BotError.sendMessageError err)

/-! ## Poll loop (`main`) -/

/-- The `current_report` / `prev_report` dict built in main (lines 184-188):
`homework_name` and `homework_status` hold `homework.get(...)` values, and
`message` holds the `parse_status` result. -/
structure Report where
  homework_name : Json
  message : String
  homework_status : Json
deriving Repr

/-- Python `==` on two report dicts (same three keys, values compared). -/
def reportBeq (a b : Report) : Bool :=
  jsonBeq a.homework_name b.homework_name
    && a.message == b.message
    && jsonBeq a.homework_status b.homework_status

/-- `current_report != prev_report` (line 190), where the stored previous
report is `none` for the initial empty dict `{}` (never equal to a report
dict, which has three keys). -/
def reportNeqPrev (current : Report) : Option Report → Bool
  | none => true
  | some p => !reportBeq current p

/-- The change-detection step of main (lines 190-192): when the fresh report
differs from the stored one, attempt `send_message` and, only after it
returns, store a copy of the fresh report; a delivery failure leaves the
stored report untouched and propagates `SendMessageError`.  Returns the new
stored report, the list of attempted notification texts, and the escaping
error, if any. -/
def change_detector (sendResult : SendOracle) (prev : Option Report) (current : Report) :
    Option Report × List String × Option BotError :=
  if reportNeqPrev current prev then
    match sendResult current.message with
    | none => (some current, [current.message], none)
    | some err => (prev, [current.message], some (BotError.sendMessageError err))
  else
    (prev, [], none)

/-- The `for homework in list_homeworks` body of main (lines 183-193).
The dict literal for `current_report` evaluates `homework.get('homework_name')`
first, so a non-dict element raises `AttributeError` before `parse_status`
runs; on a dict element, `parse_status` is the only fallible step of the
literal.  After the report is built, the change detector runs; the first
escaping exception stops the `for` loop.  Returns the value of `prev_report`
when the loop ends or the exception escapes, the attempted
status-notification texts in order, and the escaping error, if any. -/
def processHomeworks (sendResult : SendOracle) :
    Option Report → List Json → Option Report × List String × Option BotError
  | prev, [] => (prev, [], none)
  | prev, homework :: rest =>
    match homework with
    | .obj kvs =>
      match parse_status (Json.obj kvs) with
      | .error e => (prev, [], some e)
      | .ok msg =>
        let current : Report :=
          { homework_name := dictGetD kvs "homework_name"
            message := msg
            homework_status := dictGetD kvs "status" }
        match change_detector sendResult prev current with
        | (prev2, sent, some e) => (prev2, sent, some e)
        | (prev2, sent, none) =>
          let r := processHomeworks sendResult prev2 rest
          (r.1, sent ++ r.2.1, r.2.2)
    | _ => (prev, [], some (BotError.attributeError "object has no attribute get"))

/-- The `try` block of one loop iteration (lines 179-193): fetch, validate,
then process each homework.  `main` always passes an `int` timestamp, so
`get_api_answer` runs with `tsNumeric = true`. -/
def tryPhase (sendResult : SendOracle) (prev : Option Report) (api : HttpOutcome) :
    Option Report × List String × Option BotError :=
  match get_api_answer true api with
  | .error e => (prev, [], some e)
  | .ok response =>
    match check_response response with
    | .error e => (prev, [], some e)
    | .ok list_homeworks => processHomeworks sendResult prev list_homeworks

/-- The loop variables of main that survive from one iteration to the next:
`error_message` (initially `''`) and `prev_report` (initially `{}`). -/
structure CycleState where
  error_message : String
  prev_report : Option Report
deriving Repr

/-- `f'Сбой в работе программы - [{error}]'` (line 195). -/
def failMsg (e : BotError) : String :=
  "Сбой в работе программы - [" ++ errText e ++ "]"

/-- What one iteration of `while True` produced: the next loop state, the
attempted homework-status notifications, the attempted loop-level failure
notifications, and — when an exception escaped the iteration body — the
error that terminates `main` (and the process). -/
structure CycleResult where
  state : CycleState
  statusSent : List String
  failureSent : List String
  crashed : Option BotError
deriving Repr

/-- One iteration of main's `while True` (lines 178-201).  Exceptions inside
the `try` block are caught; the handler formats the failure message and,
when it differs from `error_message`, calls `send_message` — a call that sits
inside the `except` block, so a `SendMessageError` raised there is NOT
caught and escapes the loop. -/
def runCycle (sendResult : SendOracle) (api : HttpOutcome) (st : CycleState) : CycleResult :=
  match tryPhase sendResult st.prev_report api with
  | (prev2, sent, none) =>
    { state := { error_message := st.error_message, prev_report := prev2 }
      statusSent := sent, failureSent := [], crashed := none }
  | (prev2, sent, some e) =>
    let message := failMsg e
    if st.error_message = message then
      { state := { error_message := st.error_message, prev_report := prev2 }
        statusSent := sent, failureSent := [], crashed := none }
    else
      match sendResult message with
      | none =>
        { state := { error_message := message, prev_report := prev2 }
          statusSent := sent, failureSent := [message], crashed := none }
      | some err =>
        { state := { error_message := st.error_message, prev_report := prev2 }
          statusSent := sent, failureSent := [message]
          crashed := some (BotError.sendMessageError err) }

/-- A concrete report used to instantiate hypotheses of the loop theorems. -/
def sampleReport : Report :=
  { homework_name := Json.str "hw1"
    message := "Изменился статус проверки работы \"hw1\". Работа взята на проверку ревьюером."
    homework_status := Json.str "reviewing" }

/-! ## Helper lemmas -/

mutual

theorem jsonBeq_refl : (a : Json) → jsonBeq a a = true
  | .str s => by simp [jsonBeq]
  | .num n => by simp [jsonBeq]
  | .bool b => by simp [jsonBeq]
  | .null => by simp [jsonBeq]
  | .arr xs => by simp [jsonBeq, jsonListBeq_refl xs]
  | .obj kvs => by simp [jsonBeq, jsonPairsBeq_refl kvs]

theorem jsonListBeq_refl : (xs : List Json) → jsonListBeq xs xs = true
  | [] => by simp [jsonListBeq]
  | x :: xs => by simp [jsonListBeq, jsonBeq_refl x, jsonListBeq_refl xs]

theorem jsonPairsBeq_refl : (kvs : List (String × Json)) → jsonPairsBeq kvs kvs = true
  | [] => by simp [jsonPairsBeq]
  | (k, v) :: kvs => by simp [jsonPairsBeq, jsonBeq_refl v, jsonPairsBeq_refl kvs]

end

theorem reportBeq_refl (r : Report) : reportBeq r r = true := by
  simp [reportBeq, jsonBeq_refl]

/-! ## Claims -/

/-- C1: the claim says that a missing credential terminates the process
before the poll loop.  In the code, main's guard reads `if not check_tokens:`
without calling the function, so it tests the truthiness of the function
object — always true — and the abort branch is dead code: even with the chat
id absent (where `check_tokens()` itself returns `False`, and where the
intended gate described by the docstrings would abort), main does not abort,
and it aborts under no environment at all. -/
theorem c1_startup_gate_is_dead_code :
    check_tokens { practicum_token := some "p", telegram_token := some "t",
                   telegram_chat_id := none } = false ∧
    main_startup_aborts { practicum_token := some "p", telegram_token := some "t",
                          telegram_chat_id := none } = false ∧
    main_startup_aborts_intended { practicum_token := some "p", telegram_token := some "t",
                                   telegram_chat_id := none } = true ∧
    ∀ env : Env, main_startup_aborts env = false :=
  ⟨rfl, rfl, rfl, fun _ => rfl⟩

/-- C3 counterexample: a transport failure of `requests.get` propagates as
the HTTP library's own exception, which is not `EndPointError` and not any
error kind defined in `exceptions.py` — `get_api_answer` wraps nothing. -/
theorem c3_counterexample :
    get_api_answer true (HttpOutcome.transportFailure "Max retries exceeded") =
      Except.error (BotError.transportError "Max retries exceeded") ∧
    isEndPoint (BotError.transportError "Max retries exceeded") = false ∧
    isRepoError (BotError.transportError "Max retries exceeded") = false :=
  ⟨rfl, rfl, rfl⟩

/-- C3 amended: for every transport-level failure of the upstream request,
`get_api_answer` lets the untyped transport exception propagate unchanged;
it is neither an `EndPointError` nor any typed error of `exceptions.py`. -/
theorem c3_transport_failures_propagate_untyped (err : String) :
    get_api_answer true (HttpOutcome.transportFailure err) =
      Except.error (BotError.transportError err) ∧
    isEndPoint (BotError.transportError err) = false ∧
    isRepoError (BotError.transportError err) = false :=
  ⟨rfl, rfl, rfl⟩

/-- C4 counterexample: a JSON decode failure on an HTTP 200 response
propagates as the JSON decoder's own exception; the repository defines no
`MalformedResponseError`, and the escaping error is not any typed error of
`exceptions.py`. -/
theorem c4_counterexample :
    get_api_answer true
        (HttpOutcome.response 200 (Except.error "Expecting value: line 1 column 1 (char 0)")) =
      Except.error (BotError.jsonDecodeError "Expecting value: line 1 column 1 (char 0)") ∧
    isRepoError (BotError.jsonDecodeError "Expecting value: line 1 column 1 (char 0)") = false :=
  ⟨rfl, rfl⟩

/-- C4 amended: for every HTTP 200 response whose body cannot be decoded as
JSON, the decode exception propagates untyped from `response.json()`; it is
distinct from `EndPointError`, but it is not a repository-defined
`MalformedResponseError` (no such class exists). -/
theorem c4_json_decode_failures_propagate_untyped (err : String) :
    get_api_answer true (HttpOutcome.response 200 (Except.error err)) =
      Except.error (BotError.jsonDecodeError err) ∧
    isEndPoint (BotError.jsonDecodeError err) = false ∧
    isRepoError (BotError.jsonDecodeError err) = false :=
  ⟨rfl, rfl, rfl⟩

/-- C5 counterexample: the empty list is a sequence, yet `check_response`
does not return it — it raises `ListEmptyError`. -/
theorem c5_counterexample :
    check_response (Json.obj [("homeworks", Json.arr [])]) =
      Except.error (BotError.listEmptyError "Список работ пуст") :=
  rfl

/-- C5 amended: for every decoded response that is a mapping whose
`homeworks` key holds a NONEMPTY sequence, `check_response` returns exactly
that sequence, in order, unmodified. -/
theorem c5_nonempty_homeworks_returned_unchanged
    (kvs : List (String × Json)) (hws : List Json)
    (hget : dictGetD kvs "homeworks" = Json.arr hws)
    (hne : hws ≠ []) :
    check_response (Json.obj kvs) = Except.ok hws := by
  have hk : dictHasKey kvs "homeworks" = true := by
    unfold dictHasKey
    unfold dictGetD at hget
    cases hfind : kvs.find? (fun kv => kv.1 == "homeworks") with
    | none => rw [hfind] at hget; exact absurd hget (by simp)
    | some kv => simp
  unfold check_response
  simp [hk, hget, List.isEmpty_iff, hne]

/-- C5 witness: instantiating the amended theorem on a one-element list. -/
theorem c5_witness :
    check_response (Json.obj [("homeworks", Json.arr [Json.obj []])]) =
      Except.ok [Json.obj []] :=
  c5_nonempty_homeworks_returned_unchanged _ _ rfl (by simp)

/-- C2 counterexample: a cycle fails upstream (HTTP 404), the error text is
new, the loop-level failure notification is attempted, and its delivery
raises — the `SendMessageError` escapes the `while` body (the send sits
inside the `except` block), terminating `main` instead of continuing. -/
theorem c2_counterexample :
    (runCycle (fun _ => some "Unauthorized")
        (HttpOutcome.response 404 (Except.ok Json.null))
        { error_message := "", prev_report := none }).crashed =
      some (BotError.sendMessageError "Unauthorized") :=
  rfl

/-- C2 amended: every error raised inside the `try` block of a cycle is
caught and the loop continues; the only escape is a delivery failure of the
loop-level failure notification itself.  Whenever every attempted failure
notification is delivered, no cycle ever crashes the loop. -/
theorem c2_loop_catches_try_block_errors
    (sendResult : SendOracle) (api : HttpOutcome) (st : CycleState)
    (h : ∀ e : BotError, (tryPhase sendResult st.prev_report api).2.2 = some e →
      st.error_message ≠ failMsg e → sendResult (failMsg e) = none) :
    (runCycle sendResult api st).crashed = none := by
  rcases htp : tryPhase sendResult st.prev_report api with ⟨prev2, sent, err⟩
  cases err with
  | none => simp [runCycle, htp]
  | some e =>
    have hs := h e (by rw [htp])
    simp only [runCycle, htp]
    by_cases heq : st.error_message = failMsg e
    · simp [heq]
    · simp [heq, hs heq]

/-- C2 witness: a failing cycle whose failure notification is delivered
leaves the loop alive. -/
theorem c2_witness :
    (runCycle (fun _ => none)
        (HttpOutcome.response 404 (Except.ok Json.null))
        { error_message := "", prev_report := none }).crashed = none :=
  c2_loop_catches_try_block_errors _ _ _ (fun _ _ _ => rfl)

/-- C6: the loop-level failure handler attempts at most one notification per
distinct error text.  When a cycle's error formats to the text already held
in `error_message`, no failure notification is attempted; when it differs,
exactly one is attempted; and after a delivered notification, a following
cycle failing with the same text attempts none. -/
theorem c6_failure_notification_deduplicated
    (sendResult : SendOracle) (api api2 : HttpOutcome) (st : CycleState) (e : BotError)
    (htp : (tryPhase sendResult st.prev_report api).2.2 = some e) :
    (st.error_message = failMsg e → (runCycle sendResult api st).failureSent = []) ∧
    (st.error_message ≠ failMsg e → (runCycle sendResult api st).failureSent = [failMsg e]) ∧
    (st.error_message ≠ failMsg e → sendResult (failMsg e) = none →
      ∀ e2 : BotError,
        (tryPhase sendResult (runCycle sendResult api st).state.prev_report api2).2.2 = some e2 →
        failMsg e2 = failMsg e →
        (runCycle sendResult api2 (runCycle sendResult api st).state).failureSent = []) := by
  rcases htp1 : tryPhase sendResult st.prev_report api with ⟨prev2, sent, err⟩
  rw [htp1] at htp
  simp only at htp
  subst htp
  refine ⟨?_, ?_, ?_⟩
  · intro heq
    simp [runCycle, htp1, heq]
  · intro hne
    simp only [runCycle, htp1]
    rw [if_neg hne]
    cases sendResult (failMsg e) <;> simp
  · intro hne hok e2 htp2 hmsg
    have hst1 : (runCycle sendResult api st).state =
        { error_message := failMsg e, prev_report := prev2 } := by
      simp [runCycle, htp1, if_neg hne, hok]
    rw [hst1] at htp2 ⊢
    rcases htp1' : tryPhase sendResult prev2 api2 with ⟨prev3, sent3, err3⟩
    rw [htp1'] at htp2
    simp only at htp2
    subst htp2
    simp [runCycle, htp1', hmsg]

/-- C6 witness: two consecutive HTTP 404 cycles — the first attempts exactly
one failure notification, the second attempts none. -/
theorem c6_witness :
    (runCycle (fun _ => none) (HttpOutcome.response 404 (Except.ok Json.null))
        { error_message := "", prev_report := none }).failureSent =
      ["Сбой в работе программы - [Нет ответа API: 404]"] ∧
    (runCycle (fun _ => none) (HttpOutcome.response 404 (Except.ok Json.null))
        (runCycle (fun _ => none) (HttpOutcome.response 404 (Except.ok Json.null))
          { error_message := "", prev_report := none }).state).failureSent = [] := by
  have h := c6_failure_notification_deduplicated (fun _ => none)
    (HttpOutcome.response 404 (Except.ok Json.null))
    (HttpOutcome.response 404 (Except.ok Json.null))
    { error_message := "", prev_report := none }
    (BotError.endPointError "Нет ответа API: 404") rfl
  exact ⟨h.2.1 (by decide), h.2.2 (by decide) rfl _ rfl rfl⟩

/-- C7: the change detector is idempotent.  When the stored previous report
already equals the fresh one structurally, no notification is attempted and
the stored report is unchanged; and presenting the same report twice in a
row (starting from any differing stored value, with delivery succeeding)
attempts exactly one notification in total. -/
theorem c7_change_detector_idempotent
    (sendResult : SendOracle) (prev : Option Report) (r : Report)
    (hok : sendResult r.message = none) :
    change_detector sendResult (some r) r = (some r, [], none) ∧
    (reportNeqPrev r prev = true →
      change_detector sendResult prev r = (some r, [r.message], none) ∧
      change_detector sendResult (change_detector sendResult prev r).1 r =
        (some r, [], none)) := by
  have hself : reportNeqPrev r (some r) = false := by
    simp [reportNeqPrev, reportBeq_refl]
  constructor
  · simp [change_detector, hself]
  · intro hne
    have h1 : change_detector sendResult prev r = (some r, [r.message], none) := by
      simp [change_detector, hne, hok]
    refine ⟨h1, ?_⟩
    rw [h1]
    simp [change_detector, hself]

/-- C7 witness: the idempotence theorem instantiated on a concrete report,
starting from the initial empty previous report. -/
theorem c7_witness :
    change_detector (fun _ => none) (some sampleReport) sampleReport =
      (some sampleReport, [], none) ∧
    change_detector (fun _ => none) none sampleReport =
      (some sampleReport, [sampleReport.message], none) ∧
    change_detector (fun _ => none)
        (change_detector (fun _ => none) none sampleReport).1 sampleReport =
      (some sampleReport, [], none) := by
  have h := c7_change_detector_idempotent (fun _ => none) none sampleReport rfl
  exact ⟨h.1, (h.2 rfl).1, (h.2 rfl).2⟩

/-- C8: for a record holding both `homework_name` and a string `status`,
`parse_status` returns the composed message (fixed text, the name, the
verdict-table entry) exactly when the status is in `HOMEWORK_VERDICTS`
(i.e. in `approved`/`reviewing`/`rejected`), and fails with
`UndocumentedStatusError`, returning no message, exactly when it is not. -/
theorem c8_parse_status_message_and_undocumented
    (kvs : List (String × Json)) (nameVal : Json) (s : String)
    (hnamek : dictHasKey kvs "homework_name" = true)
    (hname : dictGetD kvs "homework_name" = nameVal)
    (hstatk : dictHasKey kvs "status" = true)
    (hstat : dictGetD kvs "status" = Json.str s) :
    (∀ verdict, verdictFor (Json.str s) = some verdict →
      parse_status (Json.obj kvs) =
        Except.ok ("Изменился статус проверки работы \"" ++ pyStr nameVal
          ++ "\". " ++ verdict)) ∧
    (verdictFor (Json.str s) = none →
      parse_status (Json.obj kvs) =
        Except.error (BotError.undocumentedStatusError
          ("Недокументированный статус домашней работы,"
            ++ "обнаруженный в ответе API: " ++ s))) := by
  have hkvs : kvs ≠ [] := by
    intro hnil
    rw [hnil] at hnamek
    simp [dictHasKey] at hnamek
  have htruthy : pyTruthy (Json.obj kvs) = true := by
    simp [pyTruthy, List.isEmpty_iff, hkvs]
  constructor
  · intro verdict hv
    simp [parse_status, htruthy, hnamek, hstatk, hstat, hname, hv, pyStr]
  · intro hv
    simp [parse_status, htruthy, hnamek, hstatk, hstat, hname, hv, pyStr]

/-- C8 witness: a documented status composes the message with the verdict
for `approved`; the undocumented status `unknown` fails. -/
theorem c8_witness :
    parse_status (Json.obj [("homework_name", Json.str "hw1"),
        ("status", Json.str "approved")]) =
      Except.ok ("Изменился статус проверки работы \"hw1\". "
        ++ "Работа проверена: ревьюеру всё понравилось. Ура!") ∧
    parse_status (Json.obj [("homework_name", Json.str "hw1"),
        ("status", Json.str "unknown")]) =
      Except.error (BotError.undocumentedStatusError
        ("Недокументированный статус домашней работы,"
          ++ "обнаруженный в ответе API: unknown")) := by
  have h1 := c8_parse_status_message_and_undocumented
    [("homework_name", Json.str "hw1"), ("status", Json.str "approved")]
    (Json.str "hw1") "approved" rfl rfl rfl rfl
  have h2 := c8_parse_status_message_and_undocumented
    [("homework_name", Json.str "hw1"), ("status", Json.str "unknown")]
    (Json.str "hw1") "unknown" rfl rfl rfl rfl
  refine ⟨?_, ?_⟩
  · have := h1.1 "Работа проверена: ревьюеру всё понравилось. Ура!" rfl
    simpa [pyStr] using this
  · have := h2.2 rfl
    simpa using this

/-- C9 counterexample: on `\x7b"homeworks": []\x7d` the validator does fail
with `ListEmptyError`, but a notification IS sent for that cycle — the error
reaches the loop-level handler, which (the error text being new) dispatches
a failure notification. -/
theorem c9_counterexample :
    (runCycle (fun _ => none)
        (HttpOutcome.response 200 (Except.ok (Json.obj [("homeworks", Json.arr [])])))
        { error_message := "", prev_report := none }).failureSent =
      ["Сбой в работе программы - [Список работ пуст]"] :=
  rfl

/-- C9 amended: for a decoded response whose `homeworks` value is the empty
sequence, `check_response` fails with `ListEmptyError` (not "no update"),
and no homework-status notification is sent that cycle — though the
loop-level failure handler may still attempt a failure notification. -/
theorem c9_empty_list_is_error_and_no_status_notification
    (sendResult : SendOracle) (st : CycleState) :
    check_response (Json.obj [("homeworks", Json.arr [])]) =
      Except.error (BotError.listEmptyError "Список работ пуст") ∧
    (runCycle sendResult
        (HttpOutcome.response 200 (Except.ok (Json.obj [("homeworks", Json.arr [])])))
        st).statusSent = [] := by
  refine ⟨rfl, ?_⟩
  have htp : tryPhase sendResult st.prev_report
      (HttpOutcome.response 200 (Except.ok (Json.obj [("homeworks", Json.arr [])]))) =
      (st.prev_report, [], some (BotError.listEmptyError "Список работ пуст")) := rfl
  simp only [runCycle, htp]
  split
  · rfl
  · cases sendResult (failMsg (BotError.listEmptyError "Список работ пуст")) <;> rfl

/-- C10: when the notifier raises during a homework-status notification, the
stored previous report is left unchanged (it is assigned only after
`send_message` returns), so the same change is detected and the send is
re-attempted when the report is presented again later. -/
theorem c10_failed_send_preserves_prev_report
    (sendResult sendRetry : SendOracle) (prev : Option Report) (r : Report) (err : String)
    (hne : reportNeqPrev r prev = true)
    (hfail : sendResult r.message = some err) :
    change_detector sendResult prev r =
      (prev, [r.message], some (BotError.sendMessageError err)) ∧
    (change_detector sendRetry (change_detector sendResult prev r).1 r).2.1 =
      [r.message] := by
  have h1 : change_detector sendResult prev r =
      (prev, [r.message], some (BotError.sendMessageError err)) := by
    simp [change_detector, hne, hfail]
  refine ⟨h1, ?_⟩
  rw [h1]
  simp only [change_detector, hne, if_pos rfl]
  cases sendRetry r.message <;> rfl

/-- C10 witness: a failed delivery on a concrete report leaves the empty
previous report in place, and a later presentation re-attempts the send. -/
theorem c10_witness :
    change_detector (fun _ => some "Bad Request") none sampleReport =
      (none, [sampleReport.message], some (BotError.sendMessageError "Bad Request")) ∧
    (change_detector (fun _ => none)
        (change_detector (fun _ => some "Bad Request") none sampleReport).1
        sampleReport).2.1 = [sampleReport.message] :=
  c10_failed_send_preserves_prev_report (fun _ => some "Bad Request") (fun _ => none)
    none sampleReport "Bad Request" rfl rfl
